import Mathlib

/-!
Shallow embedding of the Vulkan renderer's pure decision logic:
image layout transitions (src/buffer_utils.cpp), swapchain parameter
selection and the render-loop control flow (main application file).
Machine integers are modelled as `Nat` with explicit reduction modulo
2^32 where the C++ `uint32_t` arithmetic can wrap.
-/

deriving instance DecidableEq for Except

namespace VkRenderer

/-- `vk::Format`, restricted to the constructors this program mentions.
All other formats behave like `eR8G8B8A8Unorm` in the embedded code
(none of the embedded functions branches on them). -/
inductive Format where
  | eUndefined
  | eB8G8R8A8Unorm
  | eR8G8B8A8Unorm
  | eD32Sfloat
deriving DecidableEq, Fintype, Inhabited, Repr

/-- `vk::ColorSpaceKHR`: the one value the program tests for, plus a
stand-in for every other value. -/
inductive ColorSpaceKHR where
  | eSrgbNonlinear
  | eOtherColorSpace
deriving DecidableEq, Fintype, Inhabited, Repr

/-- `vk::ImageLayout`, restricted to the constructors the program tests
for plus representatives of the rest (the embedded function only ever
compares against `eUndefined`, `eTransferDstOptimal`,
`eDepthStencilAttachmentOptimal` and `eShaderReadOnlyOptimal`, so every
further constructor behaves like the ones kept here). -/
inductive ImageLayout where
  | eUndefined
  | eGeneral
  | eColorAttachmentOptimal
  | eDepthStencilAttachmentOptimal
  | eShaderReadOnlyOptimal
  | eTransferSrcOptimal
  | eTransferDstOptimal
  | ePreinitialized
  | ePresentSrcKHR
deriving DecidableEq, Fintype, Inhabited, Repr

/-- `VK_IMAGE_ASPECT_COLOR_BIT` -/
def VK_IMAGE_ASPECT_COLOR_BIT : Nat := 0x00000001
/-- `VK_IMAGE_ASPECT_DEPTH_BIT` -/
def VK_IMAGE_ASPECT_DEPTH_BIT : Nat := 0x00000002
/-- `VK_ACCESS_SHADER_READ_BIT` -/
def VK_ACCESS_SHADER_READ_BIT : Nat := 0x00000020
/-- `VK_ACCESS_DEPTH_STENCIL_ATTACHMENT_READ_BIT` -/
def VK_ACCESS_DEPTH_STENCIL_ATTACHMENT_READ_BIT : Nat := 0x00000200
/-- `VK_ACCESS_DEPTH_STENCIL_ATTACHMENT_WRITE_BIT` -/
def VK_ACCESS_DEPTH_STENCIL_ATTACHMENT_WRITE_BIT : Nat := 0x00000400
/-- `VK_ACCESS_TRANSFER_WRITE_BIT` -/
def VK_ACCESS_TRANSFER_WRITE_BIT : Nat := 0x00001000
/-- `VK_PIPELINE_STAGE_TOP_OF_PIPE_BIT` -/
def VK_PIPELINE_STAGE_TOP_OF_PIPE_BIT : Nat := 0x00000001
/-- `VK_PIPELINE_STAGE_FRAGMENT_SHADER_BIT` -/
def VK_PIPELINE_STAGE_FRAGMENT_SHADER_BIT : Nat := 0x00000080
/-- `VK_PIPELINE_STAGE_EARLY_FRAGMENT_TESTS_BIT` -/
def VK_PIPELINE_STAGE_EARLY_FRAGMENT_TESTS_BIT : Nat := 0x00000100
/-- `VK_PIPELINE_STAGE_TRANSFER_BIT` -/
def VK_PIPELINE_STAGE_TRANSFER_BIT : Nat := 0x00001000

/-- The fields of the `vk::ImageMemoryBarrier` that
`vulkan::transition_image_layout` fills in and that depend on its
arguments (handles and the constant queue-family/subresource indices are
omitted; the aspect mask is the one mutable part of the subresource
range). Masks are `Nat` bit masks with the Vulkan bit values. -/
structure ImageMemoryBarrier where
  oldLayout : ImageLayout
  newLayout : ImageLayout
  aspectMask : Nat
  srcAccessMask : Nat
  dstAccessMask : Nat
deriving DecidableEq, Repr

/-- The pipeline-barrier command recorded by
`vulkan::transition_image_layout`: the two stage masks passed to
`pipelineBarrier` together with the single image memory barrier. -/
structure BarrierCommand where
  srcStage : Nat
  dstStage : Nat
  barrier : ImageMemoryBarrier
deriving DecidableEq, Repr

/-- `vulkan::transition_image_layout` (src/buffer_utils.cpp): returns
the pipeline-barrier command it records, or the error it throws.  When
the `else` branch throws `std::invalid_argument`, the lambda aborts
before `pipelineBarrier`, `end` and the queue submission run, so no
barrier is recorded or submitted; this is the `Except.error` case.
The `format` parameter is accepted but never read, as in the source. -/
def transition_image_layout (format : Format)
    (old_layout new_layout : ImageLayout) : Except String BarrierCommand :=
  let aspectMask : Nat :=
    if new_layout = ImageLayout.eDepthStencilAttachmentOptimal then
      VK_IMAGE_ASPECT_DEPTH_BIT
    else
      VK_IMAGE_ASPECT_COLOR_BIT
  if old_layout = ImageLayout.eUndefined ∧
      new_layout = ImageLayout.eTransferDstOptimal then
    Except.ok
      { srcStage := VK_PIPELINE_STAGE_TOP_OF_PIPE_BIT
        dstStage := VK_PIPELINE_STAGE_TRANSFER_BIT
        barrier :=
          { oldLayout := old_layout
            newLayout := new_layout
            aspectMask := aspectMask
            srcAccessMask := 0
            dstAccessMask := VK_ACCESS_TRANSFER_WRITE_BIT } }
  else if old_layout = ImageLayout.eUndefined ∧
      new_layout = ImageLayout.eDepthStencilAttachmentOptimal then
    Except.ok
      { srcStage := VK_PIPELINE_STAGE_TOP_OF_PIPE_BIT
        dstStage := VK_PIPELINE_STAGE_EARLY_FRAGMENT_TESTS_BIT
        barrier :=
          { oldLayout := old_layout
            newLayout := new_layout
            aspectMask := aspectMask
            srcAccessMask := 0
            dstAccessMask :=
              VK_ACCESS_DEPTH_STENCIL_ATTACHMENT_READ_BIT |||
                VK_ACCESS_DEPTH_STENCIL_ATTACHMENT_WRITE_BIT } }
  else if old_layout = ImageLayout.eTransferDstOptimal ∧
      new_layout = ImageLayout.eShaderReadOnlyOptimal then
    Except.ok
      { srcStage := VK_PIPELINE_STAGE_TRANSFER_BIT
        dstStage := VK_PIPELINE_STAGE_FRAGMENT_SHADER_BIT
        barrier :=
          { oldLayout := old_layout
            newLayout := new_layout
            aspectMask := aspectMask
            srcAccessMask := VK_ACCESS_TRANSFER_WRITE_BIT
            dstAccessMask := VK_ACCESS_SHADER_READ_BIT } }
  else
    Except.error "unsupported layout transition!"

/-- The three (old_layout, new_layout) pairs the fixed table of
`transition_image_layout` recognises. -/
def supported_transition (old_layout new_layout : ImageLayout) : Prop :=
  (old_layout = ImageLayout.eUndefined ∧
      new_layout = ImageLayout.eTransferDstOptimal) ∨
    (old_layout = ImageLayout.eUndefined ∧
      new_layout = ImageLayout.eDepthStencilAttachmentOptimal) ∨
    (old_layout = ImageLayout.eTransferDstOptimal ∧
      new_layout = ImageLayout.eShaderReadOnlyOptimal)

instance (o n : ImageLayout) : Decidable (supported_transition o n) := by
  unfold supported_transition
  infer_instance

/-- `2^32`: one past the largest value a `uint32_t` holds. -/
def U32_LIMIT : Nat := 4294967296

/-- `std::numeric_limits<uint32_t>::max()`. -/
def uint32_max : Nat := 4294967295

/-- `frames_in_flight` (application file, line 39): the number K of
frame slots. -/
def frames_in_flight : Nat := 2

/-- `vk::Extent2D` with `uint32_t` components. -/
structure Extent2D where
  width : Nat
  height : Nat
deriving DecidableEq, Repr

/-- The fields of `vk::SurfaceCapabilitiesKHR` that the embedded
functions read. -/
structure SurfaceCapabilitiesKHR where
  minImageCount : Nat
  maxImageCount : Nat
  currentExtent : Extent2D
  minImageExtent : Extent2D
  maxImageExtent : Extent2D
deriving DecidableEq, Repr

/-- `vk::SurfaceFormatKHR`. -/
structure SurfaceFormatKHR where
  format : Format
  colorSpace : ColorSpaceKHR
deriving DecidableEq, Inhabited, Repr

/-- The window resolution reported by `get_resolution()` after the
source's cast of each component to `uint32_t`. -/
structure Resolution where
  width : Nat
  height : Nat
deriving DecidableEq, Repr

/-- `std::clamp(v, lo, hi)` as specified for C++:
`v < lo ? lo : (hi < v ? hi : v)`. -/
def stdClamp (v lo hi : Nat) : Nat :=
  if v < lo then lo else if hi < v then hi else v

/-- The image-count computation inside `Application::create_swap_chain`:
`image_count = minImageCount + 1` in `uint32_t` arithmetic, then capped
to `maxImageCount` when that cap is nonzero and exceeded. -/
def swap_chain_image_count (capabilities : SurfaceCapabilitiesKHR) : Nat :=
  let image_count := (capabilities.minImageCount + 1) % U32_LIMIT
  if 0 < capabilities.maxImageCount ∧
      capabilities.maxImageCount < image_count then
    capabilities.maxImageCount
  else
    image_count

/-- Modelled from the spec: the image-count formula the spec states,
`N = clamp(min+1, min, max>0 ? max : infinity)`, with `clamp` read as
C++ `std::clamp` and the infinite upper bound meaning no upper cap.
Kept separate from `swap_chain_image_count` (which is translated from
the source) so the two can be compared. -/
def spec_image_count (capabilities : SurfaceCapabilitiesKHR) : Nat :=
  if 0 < capabilities.maxImageCount then
    stdClamp (capabilities.minImageCount + 1) capabilities.minImageCount
      capabilities.maxImageCount
  else
    capabilities.minImageCount + 1

/-- `choose_swap_surface_format` (application file): the special case
for a single `eUndefined` entry, then the first entry matching the
preferred (B8G8R8A8Unorm, SrgbNonlinear) pair, then the first entry.
`List.headI` stands in for the C++ `available_formats[0]` access, which
the caller only reaches with a non-empty vector. -/
def choose_swap_surface_format
    (available_formats : List SurfaceFormatKHR) : SurfaceFormatKHR :=
  if available_formats.length = 1 ∧
      available_formats.headI.format = Format.eUndefined then
    { format := Format.eB8G8R8A8Unorm
      colorSpace := ColorSpaceKHR.eSrgbNonlinear }
  else
    match available_formats.find? (fun af =>
        af.format == Format.eB8G8R8A8Unorm &&
          af.colorSpace == ColorSpaceKHR.eSrgbNonlinear) with
    | some af => af
    | none => available_formats.headI

/-- Modelled from the spec: the Vulkan "undefined" sentinel for
`currentExtent` is the special extent whose components are both
`0xFFFFFFFF`.  Kept separate from the width-only test the source
performs so the two can be compared. -/
def is_undefined_sentinel (e : Extent2D) : Prop :=
  e.width = uint32_max ∧ e.height = uint32_max

instance (e : Extent2D) : Decidable (is_undefined_sentinel e) := by
  unfold is_undefined_sentinel
  infer_instance

/-- `choose_swap_extent` (application file): return `currentExtent`
verbatim when its width differs from `uint32_max`, otherwise clamp the
window resolution componentwise into the image-extent bounds. -/
def choose_swap_extent (capabilities : SurfaceCapabilitiesKHR)
    (res : Resolution) : Extent2D :=
  if capabilities.currentExtent.width ≠ uint32_max then
    capabilities.currentExtent
  else
    { width := stdClamp res.width capabilities.minImageExtent.width
        capabilities.maxImageExtent.width
      height := stdClamp res.height capabilities.minImageExtent.height
        capabilities.maxImageExtent.height }

/-- The subset of `vk::Result` values relevant to the render loop's
branching: `acquireNextImageKHR`/`presentKHR` results are compared only
against `eErrorOutOfDateKHR` and `eSuboptimalKHR`; the loop asserts
`eSuccess` otherwise. -/
inductive VkResult where
  | eSuccess
  | eSuboptimalKHR
  | eErrorOutOfDateKHR
deriving DecidableEq, Fintype, Repr

/-- A fence as the CPU observes it right after creation: the
`eSignaled` create-flag becomes its initial signaled state. -/
structure Fence where
  signaled : Bool
deriving DecidableEq, Repr

/-- The `vk::FenceCreateInfo` used by `create_sync_objects`: flag
`vk::FenceCreateFlagBits::eSignaled` set. -/
def fence_create_info : Fence := { signaled := true }

/-- `Application::create_sync_objects`: the in-flight fences it
creates, one per frame slot, each from `fence_create_info` (the
semaphores carry no observable creation state and are omitted). -/
def create_sync_objects : List Fence :=
  (List.range frames_in_flight).map (fun _ => fence_create_info)

/-- The observable Vulkan calls `Application::render` makes, in
program order.  Slot arguments record which frame-slot's fence or
semaphore the call uses; image arguments record the swapchain image
index the call touches. -/
inductive RenderEvent where
  | waitForFences (slot : Nat)
  | acquireNextImage (slot : Nat)
  | recreateSwapchain
  | updateUniformBuffer (image_index : Nat)
  | resetFences (slot : Nat)
  | queueSubmit (slot : Nat) (image_index : Nat)
  | presentKHR (image_index : Nat)
deriving DecidableEq, Repr

/-- `Application::render`, as the sequence of Vulkan calls one
iteration performs together with the value of `current_frame` after the
iteration.  Inputs that the GPU/driver chooses at run time are
parameters: the `acquireNextImageKHR` result and image index, the
`presentKHR` result, and the `frame_buffer_resized` flag.  The early
`return` after a stale acquire produces the short trace and leaves
`current_frame` unchanged; every other path runs to the final
`current_frame = (current_frame + 1) % frames_in_flight`. -/
def render (current_frame : Nat) (acquire_result : VkResult)
    (image_index : Nat) (present_result : VkResult)
    (frame_buffer_resized : Bool) : List RenderEvent × Nat :=
  if acquire_result = VkResult.eErrorOutOfDateKHR ∨
      acquire_result = VkResult.eSuboptimalKHR then
    ([RenderEvent.waitForFences current_frame,
      RenderEvent.acquireNextImage current_frame,
      RenderEvent.recreateSwapchain],
      current_frame)
  else if present_result = VkResult.eErrorOutOfDateKHR ∨
      present_result = VkResult.eSuboptimalKHR ∨
      frame_buffer_resized = true then
    ([RenderEvent.waitForFences current_frame,
      RenderEvent.acquireNextImage current_frame,
      RenderEvent.updateUniformBuffer image_index,
      RenderEvent.resetFences current_frame,
      RenderEvent.queueSubmit current_frame image_index,
      RenderEvent.presentKHR image_index,
      RenderEvent.recreateSwapchain],
      (current_frame + 1) % frames_in_flight)
  else
    ([RenderEvent.waitForFences current_frame,
      RenderEvent.acquireNextImage current_frame,
      RenderEvent.updateUniformBuffer image_index,
      RenderEvent.resetFences current_frame,
      RenderEvent.queueSubmit current_frame image_index,
      RenderEvent.presentKHR image_index],
      (current_frame + 1) % frames_in_flight)

/-- `main` (application file): `Application{}; app.exec();` inside a
function-try-block.  The argument is the outcome that propagates to the
top level (`Except.error` carries the exception's `what()` message).
Result: the process exit code and the lines written to standard error.
Both handlers print and then flow off the end of the handler, which for
`main` is equivalent to `return 0`, so the exit code is 0 on every
path. -/
def main (run_outcome : Except String Unit) : Nat × List String :=
  match run_outcome with
  | Except.ok _ => (0, [])
  | Except.error e => (0, ["Error: " ++ e ++ "\n"])

/-- C3: for every (old_layout, new_layout) pair outside the three
supported pairs, `transition_image_layout` raises the
"unsupported layout transition" error (so no barrier is recorded or
submitted), and for each of the three supported pairs it raises no
error. -/
theorem transition_image_layout_closed_table :
    ∀ (format : Format) (old_layout new_layout : ImageLayout),
      (¬ supported_transition old_layout new_layout →
        transition_image_layout format old_layout new_layout =
          Except.error "unsupported layout transition!") ∧
      (supported_transition old_layout new_layout →
        (transition_image_layout format old_layout
            new_layout).toOption.isSome = true) := by
  decide

/-- C3 witness: the spec's own example pair shader-read-only →
undefined is rejected with the "unsupported layout transition" error,
and the supported pair undefined → transfer-dst is not rejected. -/
theorem transition_image_layout_closed_table_witness :
    transition_image_layout Format.eR8G8B8A8Unorm
        ImageLayout.eShaderReadOnlyOptimal ImageLayout.eUndefined =
      Except.error "unsupported layout transition!" ∧
    (transition_image_layout Format.eR8G8B8A8Unorm ImageLayout.eUndefined
        ImageLayout.eTransferDstOptimal).toOption.isSome = true :=
  ⟨(transition_image_layout_closed_table Format.eR8G8B8A8Unorm
      ImageLayout.eShaderReadOnlyOptimal ImageLayout.eUndefined).1
      (by decide),
    (transition_image_layout_closed_table Format.eR8G8B8A8Unorm
      ImageLayout.eUndefined ImageLayout.eTransferDstOptimal).2
      (by decide)⟩

/-- C4: for each of the three supported pairs the recorded barrier
carries exactly the fixed table's access masks and stage masks:
undefined→transfer-dst gets none→transfer-write at
top-of-pipe→transfer; undefined→depth-stencil-attachment gets
none→depth-stencil read+write at top-of-pipe→early-fragment-tests;
transfer-dst→shader-read-only gets transfer-write→shader-read at
transfer→fragment-shader. -/
theorem transition_image_layout_table_values :
    ∀ (format : Format),
      transition_image_layout format ImageLayout.eUndefined
          ImageLayout.eTransferDstOptimal =
        Except.ok
          { srcStage := VK_PIPELINE_STAGE_TOP_OF_PIPE_BIT
            dstStage := VK_PIPELINE_STAGE_TRANSFER_BIT
            barrier :=
              { oldLayout := ImageLayout.eUndefined
                newLayout := ImageLayout.eTransferDstOptimal
                aspectMask := VK_IMAGE_ASPECT_COLOR_BIT
                srcAccessMask := 0
                dstAccessMask := VK_ACCESS_TRANSFER_WRITE_BIT } } ∧
      transition_image_layout format ImageLayout.eUndefined
          ImageLayout.eDepthStencilAttachmentOptimal =
        Except.ok
          { srcStage := VK_PIPELINE_STAGE_TOP_OF_PIPE_BIT
            dstStage := VK_PIPELINE_STAGE_EARLY_FRAGMENT_TESTS_BIT
            barrier :=
              { oldLayout := ImageLayout.eUndefined
                newLayout := ImageLayout.eDepthStencilAttachmentOptimal
                aspectMask := VK_IMAGE_ASPECT_DEPTH_BIT
                srcAccessMask := 0
                dstAccessMask :=
                  VK_ACCESS_DEPTH_STENCIL_ATTACHMENT_READ_BIT |||
                    VK_ACCESS_DEPTH_STENCIL_ATTACHMENT_WRITE_BIT } } ∧
      transition_image_layout format ImageLayout.eTransferDstOptimal
          ImageLayout.eShaderReadOnlyOptimal =
        Except.ok
          { srcStage := VK_PIPELINE_STAGE_TRANSFER_BIT
            dstStage := VK_PIPELINE_STAGE_FRAGMENT_SHADER_BIT
            barrier :=
              { oldLayout := ImageLayout.eTransferDstOptimal
                newLayout := ImageLayout.eShaderReadOnlyOptimal
                aspectMask := VK_IMAGE_ASPECT_COLOR_BIT
                srcAccessMask := VK_ACCESS_TRANSFER_WRITE_BIT
                dstAccessMask := VK_ACCESS_SHADER_READ_BIT } } := by
  decide

/-- C10: on every supported pair the recorded barrier's aspect mask is
Depth exactly when the new layout is depth-stencil-attachment-optimal
and Color otherwise, and the `format` argument never influences the
result of `transition_image_layout`. -/
theorem transition_image_layout_aspect_and_format_independence :
    (∀ (format : Format) (old_layout new_layout : ImageLayout),
      supported_transition old_layout new_layout →
        (transition_image_layout format old_layout
            new_layout).toOption.map
            (fun cmd => cmd.barrier.aspectMask) =
          some (if new_layout = ImageLayout.eDepthStencilAttachmentOptimal
            then VK_IMAGE_ASPECT_DEPTH_BIT
            else VK_IMAGE_ASPECT_COLOR_BIT)) ∧
    (∀ (f g : Format) (old_layout new_layout : ImageLayout),
      transition_image_layout f old_layout new_layout =
        transition_image_layout g old_layout new_layout) := by
  constructor
  · decide
  · intro f g old_layout new_layout
    rfl

/-- C10 witness: the depth transition records the Depth aspect, and
two different formats yield the same result on the same pair. -/
theorem transition_image_layout_aspect_witness :
    (transition_image_layout Format.eD32Sfloat ImageLayout.eUndefined
        ImageLayout.eDepthStencilAttachmentOptimal).toOption.map
        (fun cmd => cmd.barrier.aspectMask) =
      some VK_IMAGE_ASPECT_DEPTH_BIT ∧
    transition_image_layout Format.eD32Sfloat ImageLayout.eUndefined
        ImageLayout.eTransferDstOptimal =
      transition_image_layout Format.eR8G8B8A8Unorm ImageLayout.eUndefined
        ImageLayout.eTransferDstOptimal := by
  constructor
  · have h :=
      (transition_image_layout_aspect_and_format_independence).1
        Format.eD32Sfloat ImageLayout.eUndefined
        ImageLayout.eDepthStencilAttachmentOptimal (by decide)
    simpa using h
  · exact (transition_image_layout_aspect_and_format_independence).2
      Format.eD32Sfloat Format.eR8G8B8A8Unorm ImageLayout.eUndefined
      ImageLayout.eTransferDstOptimal

/-- C5 counterexample: at minImageCount = 4294967295 (a legal
`uint32_t` capabilities value) and maxImageCount = 0, the source's
`uint32_t` addition wraps to 0 while the spec's clamp formula yields
2^32, so the claimed equation fails on this input. -/
theorem swap_chain_image_count_cex :
    swap_chain_image_count
        { minImageCount := 4294967295
          maxImageCount := 0
          currentExtent := { width := 0, height := 0 }
          minImageExtent := { width := 0, height := 0 }
          maxImageExtent := { width := 0, height := 0 } } ≠
      spec_image_count
        { minImageCount := 4294967295
          maxImageCount := 0
          currentExtent := { width := 0, height := 0 }
          minImageExtent := { width := 0, height := 0 }
          maxImageExtent := { width := 0, height := 0 } } := by
  decide

/-- C5 (amended): for every capabilities input whose minImageCount + 1
stays below 2^32 (no `uint32_t` wrap-around), the image count computed
by `create_swap_chain` equals the spec's
`clamp(min+1, min, max>0 ? max : infinity)`. -/
theorem swap_chain_image_count_eq_spec
    (capabilities : SurfaceCapabilitiesKHR)
    (h : capabilities.minImageCount + 1 < U32_LIMIT) :
    swap_chain_image_count capabilities = spec_image_count capabilities := by
  simp only [swap_chain_image_count, spec_image_count, stdClamp,
    Nat.mod_eq_of_lt h]
  split_ifs <;> omega

/-- C5 witness: the spec's own example, minImageCount = 2 with no
maximum cap, yields an image count of 3 on both sides. -/
theorem swap_chain_image_count_eq_spec_witness :
    swap_chain_image_count
        { minImageCount := 2
          maxImageCount := 0
          currentExtent := { width := 0, height := 0 }
          minImageExtent := { width := 0, height := 0 }
          maxImageExtent := { width := 0, height := 0 } } =
      spec_image_count
        { minImageCount := 2
          maxImageCount := 0
          currentExtent := { width := 0, height := 0 }
          minImageExtent := { width := 0, height := 0 }
          maxImageExtent := { width := 0, height := 0 } } :=
  swap_chain_image_count_eq_spec _ (by decide)

/-- C6 counterexample: a capabilities input with minImageCount = 1 and
maxImageCount = 1 makes `create_swap_chain` compute N = 1, so the
claimed invariant K ≤ N fails (K = frames_in_flight = 2). -/
theorem frames_in_flight_le_image_count_cex :
    ¬ (frames_in_flight ≤
        swap_chain_image_count
          { minImageCount := 1
            maxImageCount := 1
            currentExtent := { width := 0, height := 0 }
            minImageExtent := { width := 0, height := 0 }
            maxImageExtent := { width := 0, height := 0 } }) := by
  decide

/-- C6 (amended): K = frames_in_flight = 2 is at most the computed
swapchain image count N for every capabilities input with
minImageCount ≥ 1 (as Vulkan guarantees), minImageCount + 1 below 2^32,
and maxImageCount either 0 (no cap) or at least 2. -/
theorem frames_in_flight_le_image_count
    (capabilities : SurfaceCapabilitiesKHR)
    (h1 : 1 ≤ capabilities.minImageCount)
    (h2 : capabilities.minImageCount + 1 < U32_LIMIT)
    (h3 : capabilities.maxImageCount = 0 ∨ 2 ≤ capabilities.maxImageCount) :
    frames_in_flight ≤ swap_chain_image_count capabilities := by
  simp only [swap_chain_image_count, frames_in_flight, Nat.mod_eq_of_lt h2]
  split_ifs with h <;> omega

/-- C6 witness: a typical capabilities input (min 2, max 8) gives at
least K = 2 images. -/
theorem frames_in_flight_le_image_count_witness :
    frames_in_flight ≤
      swap_chain_image_count
        { minImageCount := 2
          maxImageCount := 8
          currentExtent := { width := 0, height := 0 }
          minImageExtent := { width := 0, height := 0 }
          maxImageExtent := { width := 0, height := 0 } } :=
  frames_in_flight_le_image_count _ (by decide) (by decide)
    (Or.inr (by decide))

/-- C7 counterexample: on the non-empty list holding the single entry
(eUndefined, SrgbNonlinear) — which does not contain the preferred
(B8G8R8A8Unorm, SrgbNonlinear) pair — `choose_swap_surface_format`
does not return the first element: the source's special case for a
lone eUndefined entry returns the preferred pair instead. -/
theorem choose_swap_surface_format_cex :
    ([{ format := Format.eUndefined
        colorSpace := ColorSpaceKHR.eSrgbNonlinear }] :
        List SurfaceFormatKHR) ≠ [] ∧
    ({ format := Format.eB8G8R8A8Unorm
       colorSpace := ColorSpaceKHR.eSrgbNonlinear } : SurfaceFormatKHR) ∉
      ([{ format := Format.eUndefined
          colorSpace := ColorSpaceKHR.eSrgbNonlinear }] :
          List SurfaceFormatKHR) ∧
    choose_swap_surface_format
        [{ format := Format.eUndefined
           colorSpace := ColorSpaceKHR.eSrgbNonlinear }] ≠
      ([{ format := Format.eUndefined
          colorSpace := ColorSpaceKHR.eSrgbNonlinear }] :
          List SurfaceFormatKHR).headI := by
  decide

/-- C7 (amended): for every non-empty format list, if the list is a
single entry whose format is eUndefined then the preferred
(B8G8R8A8Unorm, SrgbNonlinear) pair is returned; otherwise, if the list
contains the preferred pair exactly that pair is returned, and if it
does not, the first element is returned. -/
theorem choose_swap_surface_format_spec
    (available_formats : List SurfaceFormatKHR)
    (hne : available_formats ≠ []) :
    (available_formats.length = 1 ∧
        available_formats.headI.format = Format.eUndefined →
      choose_swap_surface_format available_formats =
        { format := Format.eB8G8R8A8Unorm
          colorSpace := ColorSpaceKHR.eSrgbNonlinear }) ∧
    (¬ (available_formats.length = 1 ∧
        available_formats.headI.format = Format.eUndefined) →
      (({ format := Format.eB8G8R8A8Unorm
          colorSpace := ColorSpaceKHR.eSrgbNonlinear } : SurfaceFormatKHR) ∈
          available_formats →
        choose_swap_surface_format available_formats =
          { format := Format.eB8G8R8A8Unorm
            colorSpace := ColorSpaceKHR.eSrgbNonlinear }) ∧
      (({ format := Format.eB8G8R8A8Unorm
          colorSpace := ColorSpaceKHR.eSrgbNonlinear } : SurfaceFormatKHR) ∉
          available_formats →
        choose_swap_surface_format available_formats =
          available_formats.headI)) := by
  refine ⟨?_, ?_⟩
  · intro h
    rw [choose_swap_surface_format, if_pos h]
  · intro h
    rw [choose_swap_surface_format, if_neg h]
    constructor
    · intro hmem
      cases hf : available_formats.find? (fun af =>
          af.format == Format.eB8G8R8A8Unorm &&
            af.colorSpace == ColorSpaceKHR.eSrgbNonlinear) with
      | none =>
        exfalso
        rw [List.find?_eq_none] at hf
        have hcontra := hf _ hmem
        simp at hcontra
      | some af =>
        have hp := List.find?_some hf
        have haf : af =
            { format := Format.eB8G8R8A8Unorm
              colorSpace := ColorSpaceKHR.eSrgbNonlinear } := by
          cases af with
          | mk fo cs =>
            simp only [Bool.and_eq_true, beq_iff_eq] at hp
            rw [hp.1, hp.2]
        exact haf
    · intro hnmem
      cases hf : available_formats.find? (fun af =>
          af.format == Format.eB8G8R8A8Unorm &&
            af.colorSpace == ColorSpaceKHR.eSrgbNonlinear) with
      | none => rfl
      | some af =>
        exfalso
        have hp := List.find?_some hf
        have hmem2 := List.mem_of_find?_eq_some hf
        have haf : af =
            { format := Format.eB8G8R8A8Unorm
              colorSpace := ColorSpaceKHR.eSrgbNonlinear } := by
          cases af with
          | mk fo cs =>
            simp only [Bool.and_eq_true, beq_iff_eq] at hp
            rw [hp.1, hp.2]
        exact hnmem (haf ▸ hmem2)

/-- C7 witness: a two-element list that contains the preferred pair in
second position yields exactly the preferred pair. -/
theorem choose_swap_surface_format_spec_witness :
    choose_swap_surface_format
        [{ format := Format.eR8G8B8A8Unorm
           colorSpace := ColorSpaceKHR.eSrgbNonlinear },
         { format := Format.eB8G8R8A8Unorm
           colorSpace := ColorSpaceKHR.eSrgbNonlinear }] =
      { format := Format.eB8G8R8A8Unorm
        colorSpace := ColorSpaceKHR.eSrgbNonlinear } :=
  ((choose_swap_surface_format_spec _ (by decide)).2 (by decide)).1
    (by decide)

/-- C8 counterexample: a capabilities value whose currentExtent is
(0xFFFFFFFF, 600) — not the Vulkan undefined sentinel, whose components
are both 0xFFFFFFFF — is still sent down the clamping path, because the
source tests only the width component; the result differs from the
claimed verbatim currentExtent. -/
theorem choose_swap_extent_cex :
    ¬ is_undefined_sentinel
        ({ minImageCount := 2
           maxImageCount := 0
           currentExtent := { width := 4294967295, height := 600 }
           minImageExtent := { width := 100, height := 100 }
           maxImageExtent := { width := 2000, height := 2000 } :
           SurfaceCapabilitiesKHR }).currentExtent ∧
    choose_swap_extent
        { minImageCount := 2
          maxImageCount := 0
          currentExtent := { width := 4294967295, height := 600 }
          minImageExtent := { width := 100, height := 100 }
          maxImageExtent := { width := 2000, height := 2000 } }
        { width := 800, height := 500 } ≠
      ({ minImageCount := 2
         maxImageCount := 0
         currentExtent := { width := 4294967295, height := 600 }
         minImageExtent := { width := 100, height := 100 }
         maxImageExtent := { width := 2000, height := 2000 } :
         SurfaceCapabilitiesKHR }).currentExtent := by
  decide

/-- C8 (amended): `choose_swap_extent` keys on the width component
alone: when currentExtent.width equals 0xFFFFFFFF the requested
resolution is clamped componentwise into
[minImageExtent, maxImageExtent] (and returned unchanged when already
inside the bounds); when currentExtent.width differs from 0xFFFFFFFF,
currentExtent is returned verbatim regardless of the requested
resolution. -/
theorem choose_swap_extent_spec (capabilities : SurfaceCapabilitiesKHR)
    (res : Resolution) :
    (capabilities.currentExtent.width = uint32_max →
      choose_swap_extent capabilities res =
        { width := stdClamp res.width capabilities.minImageExtent.width
            capabilities.maxImageExtent.width
          height := stdClamp res.height capabilities.minImageExtent.height
            capabilities.maxImageExtent.height }) ∧
    (capabilities.currentExtent.width = uint32_max →
      capabilities.minImageExtent.width ≤ res.width →
      res.width ≤ capabilities.maxImageExtent.width →
      capabilities.minImageExtent.height ≤ res.height →
      res.height ≤ capabilities.maxImageExtent.height →
      choose_swap_extent capabilities res =
        { width := res.width, height := res.height }) ∧
    (capabilities.currentExtent.width ≠ uint32_max →
      choose_swap_extent capabilities res = capabilities.currentExtent) := by
  refine ⟨?_, ?_, ?_⟩
  · intro h
    rw [choose_swap_extent, if_neg (not_not_intro h)]
  · intro h h1 h2 h3 h4
    rw [choose_swap_extent, if_neg (not_not_intro h)]
    simp only [stdClamp, Extent2D.mk.injEq]
    constructor <;> split_ifs <;> omega
  · intro h
    rw [choose_swap_extent, if_pos h]

/-- C8 witness: with the sentinel width, an in-bounds resolution is
returned unchanged; with a defined extent, the extent is returned
verbatim. -/
theorem choose_swap_extent_spec_witness :
    choose_swap_extent
        { minImageCount := 2
          maxImageCount := 0
          currentExtent := { width := 4294967295, height := 4294967295 }
          minImageExtent := { width := 100, height := 100 }
          maxImageExtent := { width := 2000, height := 2000 } }
        { width := 800, height := 500 } =
      { width := 800, height := 500 } ∧
    choose_swap_extent
        { minImageCount := 2
          maxImageCount := 0
          currentExtent := { width := 1440, height := 900 }
          minImageExtent := { width := 100, height := 100 }
          maxImageExtent := { width := 2000, height := 2000 } }
        { width := 800, height := 500 } =
      { width := 1440, height := 900 } :=
  ⟨(choose_swap_extent_spec _ _).2.1 (by decide) (by decide) (by decide)
      (by decide) (by decide),
    (choose_swap_extent_spec
        { minImageCount := 2
          maxImageCount := 0
          currentExtent := { width := 1440, height := 900 }
          minImageExtent := { width := 100, height := 100 }
          maxImageExtent := { width := 2000, height := 2000 } } _).2.2
      (by decide)⟩

/-- C1: on every path through `render`, a queue submission that signals
slot k's in-flight fence (a) uses the slot the iteration started with,
(b) is preceded in the iteration's call sequence by the wait on that
same slot's fence — the wait is the very first call — and (c) the
fences are created pre-signaled, so the first wait succeeds. -/
theorem render_fence_discipline :
    (∀ (current_frame image_index : Nat)
       (acquire_result present_result : VkResult)
       (frame_buffer_resized : Bool) (k im : Nat),
      RenderEvent.queueSubmit k im ∈
          (render current_frame acquire_result image_index present_result
            frame_buffer_resized).1 →
        k = current_frame ∧
        (render current_frame acquire_result image_index present_result
            frame_buffer_resized).1[0]? =
          some (RenderEvent.waitForFences k) ∧
        RenderEvent.queueSubmit k im ∈
          ((render current_frame acquire_result image_index present_result
            frame_buffer_resized).1.drop 1)) ∧
    (∀ i, i < frames_in_flight →
      create_sync_objects[i]? = some { signaled := true }) := by
  constructor
  · intro cf img ar pr rz k im hmem
    simp only [render] at hmem ⊢
    split_ifs at hmem ⊢ with h1 h2
    · simp at hmem
    · simp only [List.mem_cons, List.not_mem_nil, or_false] at hmem
      simp at hmem
      obtain ⟨hk, him⟩ := hmem
      subst hk
      subst him
      refine ⟨rfl, rfl, ?_⟩
      simp
    · simp at hmem
      obtain ⟨hk, him⟩ := hmem
      subst hk
      subst him
      refine ⟨rfl, rfl, ?_⟩
      simp
  · intro i hi
    have hi2 : i < 2 := hi
    interval_cases i <;> rfl

/-- C1 witness: on the fully successful path from slot 0 with image 7,
the submission for slot 0 appears, the first call is the wait on slot
0's fence, the submission comes after it, and fence 0 starts
signaled. -/
theorem render_fence_discipline_witness :
    ((0 : Nat) = 0 ∧
      (render 0 VkResult.eSuccess 7 VkResult.eSuccess false).1[0]? =
        some (RenderEvent.waitForFences 0) ∧
      RenderEvent.queueSubmit 0 7 ∈
        ((render 0 VkResult.eSuccess 7 VkResult.eSuccess false).1.drop 1)) ∧
    create_sync_objects[0]? = some { signaled := true } :=
  ⟨render_fence_discipline.1 0 7 VkResult.eSuccess VkResult.eSuccess false
      0 7 (by decide),
    render_fence_discipline.2 0 (by decide)⟩

/-- C2: a stale acquire (out-of-date or suboptimal) makes `render`
recreate the swapchain and return at once — its call sequence is
exactly wait, acquire, recreate, with no uniform update, no fence
reset, no queue submission and no present — and leaves current_frame
unchanged; a successful acquire advances current_frame to
(current_frame + 1) mod frames_in_flight. -/
theorem render_stale_acquire_aborts :
    ∀ (current_frame image_index : Nat)
      (acquire_result present_result : VkResult)
      (frame_buffer_resized : Bool),
      ((acquire_result = VkResult.eErrorOutOfDateKHR ∨
          acquire_result = VkResult.eSuboptimalKHR) →
        (render current_frame acquire_result image_index present_result
            frame_buffer_resized).1 =
          [RenderEvent.waitForFences current_frame,
            RenderEvent.acquireNextImage current_frame,
            RenderEvent.recreateSwapchain] ∧
        (∀ i, RenderEvent.updateUniformBuffer i ∉
          (render current_frame acquire_result image_index present_result
            frame_buffer_resized).1) ∧
        (∀ s, RenderEvent.resetFences s ∉
          (render current_frame acquire_result image_index present_result
            frame_buffer_resized).1) ∧
        (∀ s i, RenderEvent.queueSubmit s i ∉
          (render current_frame acquire_result image_index present_result
            frame_buffer_resized).1) ∧
        (∀ i, RenderEvent.presentKHR i ∉
          (render current_frame acquire_result image_index present_result
            frame_buffer_resized).1) ∧
        (render current_frame acquire_result image_index present_result
            frame_buffer_resized).2 = current_frame) ∧
      (acquire_result = VkResult.eSuccess →
        (render current_frame acquire_result image_index present_result
            frame_buffer_resized).2 =
          (current_frame + 1) % frames_in_flight) := by
  intro cf img ar pr rz
  constructor
  · intro h
    simp [render, if_pos h]
  · intro h
    subst h
    simp only [render]
    rw [if_neg (by decide)]
    split_ifs <;> rfl

/-- C2 witness: a concrete out-of-date acquire from slot 1 yields
exactly the three-call abort sequence and leaves the slot at 1, while a
successful acquire advances slot 1 to (1 + 1) mod 2. -/
theorem render_stale_acquire_aborts_witness :
    (render 1 VkResult.eErrorOutOfDateKHR 5 VkResult.eSuccess false).1 =
      [RenderEvent.waitForFences 1, RenderEvent.acquireNextImage 1,
        RenderEvent.recreateSwapchain] ∧
    (render 1 VkResult.eErrorOutOfDateKHR 5 VkResult.eSuccess false).2 = 1 ∧
    (render 1 VkResult.eSuccess 5 VkResult.eSuccess false).2 =
      (1 + 1) % frames_in_flight :=
  ⟨((render_stale_acquire_aborts 1 5 VkResult.eErrorOutOfDateKHR
      VkResult.eSuccess false).1 (Or.inl rfl)).1,
    ((render_stale_acquire_aborts 1 5 VkResult.eErrorOutOfDateKHR
      VkResult.eSuccess false).1 (Or.inl rfl)).2.2.2.2.2,
    (render_stale_acquire_aborts 1 5 VkResult.eSuccess
      VkResult.eSuccess false).2 rfl⟩

/-- C9 counterexample: when the "unsupported layout transition" error
propagates to the top level, the process exit code is 0, not nonzero:
both catch handlers in `main` print a diagnostic and then flow off the
end of the handler, which for `main` is equivalent to `return 0`. -/
theorem main_exit_code_cex :
    (main (Except.error "unsupported layout transition!")).1 = 0 := rfl

/-- C9 (amended): the process exits with code 0 on clean shutdown, and
when an unrecoverable error propagates to the top level it prints the
"Error: ..." diagnostic to standard error but still exits with code 0
(the catch handler does not return a nonzero status). -/
theorem main_exit_semantics :
    main (Except.ok ()) = (0, []) ∧
    ∀ (msg : String),
      main (Except.error msg) = (0, ["Error: " ++ msg ++ "\n"]) :=
  ⟨rfl, fun _ => rfl⟩

end VkRenderer
